import Mathlib

/-!
Verification development for the WorkTimeTracker repository.

Shallow embedding of:
 * `user_app/db_local.py` — the durable local log (`LocalDB`): schema triggers,
   `log_action`, `get_unsynced_actions`, `get_unsynced_count`, `mark_actions_synced`;
 * `sheets_api.py` — the remote access layer (`SheetsAPI`): `_request_with_retry`
   and `check_user_session_status`;
 * `dist/WorkTimeTracker_User/_internal/auto_sync.py` — the sync engine
   (`SyncManager`): `_check_remote_commands`, `sync_once`, and the interval /
   mode-switching logic of `run_service`;
 * `config.py` — the configuration scalars those functions read.

Machine integers are modelled as `Int`/`Nat` (Python ints are unbounded, SQLite
INTEGER well within range here). Python/SQLite strings are modelled as their
character sequences (`List Char`), so that comparison (`<` is the lexicographic
order both SQLite and Python use on text), `.strip()`, `.lower()` and slicing
are all executable and kernel-reducible. Fallible operations return `Except`.
-/

namespace WTT

/-- A Python / SQLite TEXT value, as its sequence of characters. -/
abbrev Str := List Char

/-! ### Configuration scalars (`config.py`) -/

/-- `MAX_COMMENT_LENGTH: int = 500` (config.py). -/
def MAX_COMMENT_LENGTH : Nat := 500

/-- `SYNC_BATCH_SIZE: int = 35` (config.py line 86, both the repo root config and
the shipped `dist/WorkTimeTracker_User/_internal/config.py`). -/
def SYNC_BATCH_SIZE : Nat := 35

/-- `SYNC_INTERVAL: int = 100` (config.py). -/
def SYNC_INTERVAL : Nat := 100

/-- `SYNC_INTERVAL_ONLINE: int = 60` (config.py). -/
def SYNC_INTERVAL_ONLINE : Nat := 60

/-- `SYNC_INTERVAL_OFFLINE_RECOVERY: int = 300` (config.py). -/
def SYNC_INTERVAL_OFFLINE_RECOVERY : Nat := 300

/-- `API_MAX_RETRIES: int = 5` (config.py). -/
def API_MAX_RETRIES : Nat := 5

/-- `API_DELAY_SECONDS: float = 1.5` (config.py); modelled exactly in `ℚ`. -/
def API_DELAY_SECONDS : ℚ := 3 / 2

/-- `GOOGLE_API_LIMITS['max_requests_per_minute'] = 60` (config.py). -/
def MAX_REQUESTS_PER_MINUTE : Nat := 60

/-! ### Python-semantics helpers -/

/-- Python `x or 1` for an optional int: `None` and `0` are falsy. Used by
`log_action` as `int(priority or 1)` (`int` on an int is the identity). -/
def pyIntOr1 : Option Int → Int
  | none => 1
  | some n => if n = 0 then 1 else n

/-- Python `s or dflt` for an optional string: `None` and `""` are falsy. -/
def pyStrOr (s : Option Str) (dflt : Str) : Str :=
  match s with
  | none => dflt
  | some v => if v = [] then dflt else v

/-- Python `.lower()` / SQLite `LOWER(...)` (ASCII case folding, which is what
`Char.toLower` performs; the strings compared are ASCII). -/
def pyLower (s : Str) : Str := s.map Char.toLower

/-- ASCII whitespace recognized by Python `.strip()`. -/
def isPySpace (c : Char) : Bool :=
  c = ' ' || c = '\t' || c = '\n' || c = '\r' || c = '\x0b' || c = '\x0c'

/-- Python `.strip()`: removes whitespace from both ends. -/
def pyStrip (s : Str) : Str :=
  ((s.dropWhile isPySpace).reverse.dropWhile isPySpace).reverse

instance {ε α : Type} [DecidableEq ε] [DecidableEq α] : DecidableEq (Except ε α) :=
  fun x y =>
  match x, y with
  | .ok a, .ok b =>
    if h : a = b then isTrue (h ▸ rfl) else isFalse (fun hc => h (Except.ok.inj hc))
  | .error a, .error b =>
    if h : a = b then isTrue (h ▸ rfl) else isFalse (fun hc => h (Except.error.inj hc))
  | .ok _, .error _ => isFalse (fun hc => Except.noConfusion hc)
  | .error _, .ok _ => isFalse (fun hc => Except.noConfusion hc)

/-! ### Durable local log (`user_app/db_local.py`) -/

/-- One row of the `logs` table (schema from `LocalDB._ensure_schema`). -/
structure LogRow where
  id : Int
  session_id : Str
  email : Str
  name : Str
  status : Option Str := none
  action_type : Str
  comment : Option Str := none
  timestamp : Str
  synced : Int := 0
  sync_attempts : Int := 0
  last_sync_attempt : Option Str := none
  priority : Int := 1
  status_start_time : Option Str := none
  status_end_time : Option Str := none
  reason : Option Str := none
  user_group : Option Str := none
  deriving DecidableEq

/-- The `logs` table plus the next AUTOINCREMENT rowid (SQLite assigns ids
starting from 1, so a live database always has `nextId ≥ 1`). -/
structure DBState where
  rows : List LogRow
  nextId : Int
  deriving DecidableEq

/-- `LocalDBError` raised by `log_action`. -/
inductive DBError where
  | localDBError (msg : Str)
  deriving DecidableEq

/-- Keyword arguments of `LocalDB.log_action` (defaults as in the source). -/
structure LogActionInput where
  email : Str
  name : Str
  status : Option Str := none
  action_type : Str
  comment : Option Str := none
  priority : Option Int := some 1
  session_id : Option Str := none
  status_start_time : Option Str := none
  status_end_time : Option Str := none
  reason : Option Str := none
  user_group : Option Str := none
  deriving DecidableEq

/-- The clock values `log_action` and the SQLite triggers read: `nowIso` is
`datetime.now(timezone.utc).isoformat()` (the stored `timestamp`), `nowCompact`
is `datetime.now().strftime('%Y%m%d%H%M%S')` (used by `_gen_session_id`), and
`dedupCutoff` is the TEXT value of `datetime('now', '-5 minutes')` inside the
`prevent_duplicate_logout` trigger. -/
structure TimeCtx where
  nowIso : Str
  nowCompact : Str
  dedupCutoff : Str
  deriving DecidableEq

/-- `LocalDB._gen_session_id`: `f"{(email or '')[:8]}_{now:%Y%m%d%H%M%S}"`. -/
def gen_session_id (email : Str) (nowCompact : Str) : Str :=
  (pyStrOr (some email) []).take 8 ++ "_".data ++ nowCompact

/-- WHEN condition of the `check_comment_length` trigger:
`length(NEW.comment) > 500`. `length(NULL)` is NULL, which does not fire. -/
def commentTooLong (comment : Option Str) : Bool :=
  match comment with
  | none => false
  | some c => c.length > MAX_COMMENT_LENGTH

/-- WHEN condition of the `prevent_duplicate_logout` trigger:
`LOWER(NEW.action_type) = 'logout' AND EXISTS (SELECT 1 FROM logs WHERE
session_id = NEW.session_id AND LOWER(action_type) = 'logout' AND
timestamp > datetime('now', '-5 minutes'))`. SQLite compares the TEXT
`timestamp` column with the TEXT result of `datetime(...)` as strings. -/
def duplicateLogout (rows : List LogRow) (sid : Str) (actionType : Str)
    (cutoff : Str) : Bool :=
  pyLower actionType == "logout".data &&
    rows.any (fun r =>
      r.session_id == sid && pyLower r.action_type == "logout".data &&
        cutoff < r.timestamp)

/-- The row `log_action` INSERTs on the success path: the VALUES tuple of the
INSERT statement, with the defaults `log_action` computed beforehand
(`ts = datetime.now(timezone.utc).isoformat()`, generated `session_id`,
truncated `comment`, `prio = max(1, min(3, int(priority or 1)))`), plus the
schema defaults `synced=0, sync_attempts=0` and the fresh AUTOINCREMENT id. -/
def insertedRow (t : TimeCtx) (a : LogActionInput) (db : DBState) : LogRow :=
  { id := db.nextId
    session_id := pyStrOr a.session_id (gen_session_id a.email t.nowCompact)
    email := pyStrip a.email
    name := pyStrip a.name
    status := a.status
    action_type := a.action_type
    comment := a.comment.map (fun c =>
      if c.length > MAX_COMMENT_LENGTH then c.take MAX_COMMENT_LENGTH else c)
    timestamp := t.nowIso
    synced := 0
    sync_attempts := 0
    last_sync_attempt := none
    priority := max 1 (min 3 (pyIntOr1 a.priority))
    status_start_time := a.status_start_time
    status_end_time := a.status_end_time
    reason := a.reason
    user_group := a.user_group }

/-- `LocalDB.log_action`: validates required fields, truncates over-long
comments, fills defaults (`ts`, `session_id`, clamped `prio`), then inserts.
A BEFORE INSERT trigger abort surfaces as `sqlite3.Error`; the
`'Duplicate LOGOUT action'` abort is caught and turned into the return value
`-1`, any other database error is re-raised as `LocalDBError`. On success the
new AUTOINCREMENT rowid (`cur.lastrowid`) is returned. -/
def log_action (t : TimeCtx) (a : LogActionInput) (db : DBState) :
    Except DBError (Int × DBState) :=
  if a.email = [] ∨ a.name = [] ∨ a.action_type = [] then
    .error (.localDBError "required fields missing".data)
  else
    let comment := a.comment.map (fun c =>
      if c.length > MAX_COMMENT_LENGTH then c.take MAX_COMMENT_LENGTH else c)
    let sid := pyStrOr a.session_id (gen_session_id a.email t.nowCompact)
    if commentTooLong comment then
      .error (.localDBError "Comment too long".data)
    else if duplicateLogout db.rows sid a.action_type t.dedupCutoff then
      .ok (-1, db)
    else
      .ok (db.nextId, { rows := db.rows ++ [insertedRow t a db], nextId := db.nextId + 1 })

/-- The `ORDER BY priority DESC, timestamp ASC` ordering of
`get_unsynced_actions`, as a relation on rows. -/
def unsyncedOrder (a b : LogRow) : Prop :=
  b.priority < a.priority ∨ (a.priority = b.priority ∧ a.timestamp ≤ b.timestamp)

instance : DecidableRel unsyncedOrder := fun a b => by
  unfold unsyncedOrder; infer_instance

instance : IsTotal LogRow unsyncedOrder where
  total a b := by
    unfold unsyncedOrder
    rcases lt_trichotomy a.priority b.priority with h | h | h
    · exact Or.inr (Or.inl h)
    · rcases le_total a.timestamp b.timestamp with ht | ht
      · exact Or.inl (Or.inr ⟨h, ht⟩)
      · exact Or.inr (Or.inr ⟨h.symm, ht⟩)
    · exact Or.inl (Or.inl h)

instance : IsTrans LogRow unsyncedOrder where
  trans a b c hab hbc := by
    unfold unsyncedOrder at *
    rcases hab with h1 | ⟨h1, h1t⟩
    · rcases hbc with h2 | ⟨h2, _⟩
      · exact Or.inl (h2.trans h1)
      · exact Or.inl (h2 ▸ h1)
    · rcases hbc with h2 | ⟨h2, h2t⟩
      · exact Or.inl (h1 ▸ h2)
      · exact Or.inr ⟨h1.trans h2, h1t.trans h2t⟩

/-- `LocalDB.get_unsynced_actions(limit)`:
`SELECT ... FROM logs WHERE synced = 0 ORDER BY priority DESC, timestamp ASC
LIMIT ?`. The SELECT is modelled as filter + sort + take; `insertionSort`
realizes one ordering consistent with the SQL sort keys. -/
def get_unsynced_actions (limit : Nat) (db : DBState) : List LogRow :=
  (List.insertionSort unsyncedOrder (db.rows.filter (fun r => r.synced == 0))).take limit

/-- `LocalDB.get_unsynced_count`: `SELECT COUNT(*) FROM logs WHERE synced = 0`. -/
def get_unsynced_count (db : DBState) : Nat :=
  (db.rows.filter (fun r => r.synced == 0)).length

/-- The per-row effect of `mark_actions_synced`'s UPDATE on a row whose id is
listed: `synced = 1, sync_attempts = sync_attempts + k, last_sync_attempt = now`
(`k` calls' worth of increments); other rows are untouched. -/
def syncUpdate (ids : List Int) (now : Str) (k : Int) (r : LogRow) : LogRow :=
  if r.id ∈ ids then
    { r with synced := 1, sync_attempts := r.sync_attempts + k, last_sync_attempt := some now }
  else r

/-- `LocalDB.mark_actions_synced(ids)`: no-op on an empty list, otherwise
`UPDATE logs SET synced = 1, sync_attempts = sync_attempts + 1,
last_sync_attempt = ? WHERE id IN (...)`. -/
def mark_actions_synced (ids : List Int) (now : Str) (db : DBState) : DBState :=
  if ids = [] then db
  else { db with rows := db.rows.map (syncUpdate ids now 1) }

/-! ### Active-Session Directory (`sheets_api.py`) -/

/-- One record of the `ActiveSessions` worksheet as `_read_table` returns it:
a dict of raw cell strings keyed by the header (the four columns
`check_user_session_status` reads; `r.get("LoginTime") or ""` makes a missing
cell the empty string, as does `_read_table` for short rows). -/
structure SessionRow where
  Email : Str
  SessionID : Str
  LoginTime : Str
  Status : Str
  deriving DecidableEq

/-- The `key_fn` ordering of `check_user_session_status`: Python tuple
comparison of `((r.get("LoginTime") or "").strip(), idx)`, on rows paired with
their 2-based sheet index from `enumerate(table, start=2)`. -/
def sessionKeyLE (a b : Nat × SessionRow) : Prop :=
  pyStrip a.2.LoginTime < pyStrip b.2.LoginTime ∨
    (pyStrip a.2.LoginTime = pyStrip b.2.LoginTime ∧ a.1 ≤ b.1)

instance : DecidableRel sessionKeyLE := fun a b => by
  unfold sessionKeyLE; infer_instance

instance : IsTotal (Nat × SessionRow) sessionKeyLE where
  total a b := by
    unfold sessionKeyLE
    rcases lt_trichotomy (pyStrip a.2.LoginTime) (pyStrip b.2.LoginTime) with h | h | h
    · exact Or.inl (Or.inl h)
    · rcases Nat.le_total a.1 b.1 with hi | hi
      · exact Or.inl (Or.inr ⟨h, hi⟩)
      · exact Or.inr (Or.inr ⟨h.symm, hi⟩)
    · exact Or.inr (Or.inl h)

instance : IsTrans (Nat × SessionRow) sessionKeyLE where
  trans a b c hab hbc := by
    unfold sessionKeyLE at *
    rcases hab with h1 | ⟨h1, h1i⟩
    · rcases hbc with h2 | ⟨h2, _⟩
      · exact Or.inl (h1.trans h2)
      · exact Or.inl (h2 ▸ h1)
    · rcases hbc with h2 | ⟨h2, h2i⟩
      · exact Or.inl (h1 ▸ h2)
      · exact Or.inr ⟨h1.trans h2, h1i.trans h2i⟩

/-- Trailing normalization in `check_user_session_status`:
`status = (row.get("Status", "") or "").strip().lower(); return status or "unknown"`. -/
def normStatus (s : Str) : Str :=
  let st := pyLower (pyStrip s)
  if st = [] then "unknown".data else st

/-- The `exact` list of `check_user_session_status`: indexed rows (from
`enumerate(table, start=2)`) whose normalized Email equals the normalized query
email and whose stripped SessionID equals the stripped query session id. -/
def exactMatches (table : List SessionRow) (email sessionId : Str) :
    List (Nat × SessionRow) :=
  (List.enumFrom 2 table).filter (fun p =>
    pyLower (pyStrip p.2.Email) == pyLower (pyStrip email) &&
      pyStrip p.2.SessionID == pyStrip sessionId)

/-- The `same_email` list of `check_user_session_status`: indexed rows whose
normalized Email equals the normalized query email. -/
def emailMatches (table : List SessionRow) (email : Str) : List (Nat × SessionRow) :=
  (List.enumFrom 2 table).filter (fun p =>
    pyLower (pyStrip p.2.Email) == pyLower (pyStrip email))

/-- `SheetsAPI.check_user_session_status(email, session_id)`: prefers the most
recent exact `(email, session_id)` match (Python `sorted(...)[-1]` by
`key_fn`, a stable ascending sort, hence the maximum of the injective key);
otherwise the most recent record for the email; `"unknown"` if none exists. -/
def check_user_session_status (table : List SessionRow) (email sessionId : Str) :
    Str :=
  let exact := exactMatches table email sessionId
  let chosen :=
    if !exact.isEmpty then
      (List.insertionSort sessionKeyLE exact).getLast?
    else
      let sameEmail := emailMatches table email
      if sameEmail.isEmpty then none
      else (List.insertionSort sessionKeyLE sameEmail).getLast?
  match chosen with
  | none => "unknown".data
  | some p => normStatus p.2.Status

/-! ### Retry wrapper (`SheetsAPI._request_with_retry`) -/

/-- The facts about a raised Python exception `e` that
`_request_with_retry` inspects: whether `e` is a `SheetsAPIError` (re-raised
as-is), its `is_retryable` attribute in that case, and whether `str(e).lower()`
contains one of the retry keywords `rate limit`/`quota`/`429`/`timeout`/
`temporarily`/`unavailable`/`socket`. -/
structure PyExc where
  isSheetsError : Bool
  retryFlag : Bool
  msgRetryable : Bool
  deriving DecidableEq

/-- The typed `SheetsAPIError` that escapes `_request_with_retry`, reduced to
its `is_retryable` flag. -/
structure RaisedError where
  retryable : Bool
  deriving DecidableEq

/-- What the wrapper raises for a failure it will not retry: a
`SheetsAPIError` is re-raised unchanged (`if isinstance(e, SheetsAPIError):
raise`), anything else is wrapped as
`SheetsAPIError(f"API request failed: {e}", is_retryable=True, ...)`. -/
def raisedFrom (e : PyExc) : RaisedError :=
  if e.isSheetsError then ⟨e.retryFlag⟩ else ⟨true⟩

/-- Result of `_request_with_retry`: the returned value or the escaping error. -/
inductive RetryOutcome (α : Type) where
  | ok (val : α)
  | raised (err : RaisedError)
  deriving DecidableEq

/-- Observable trace of one `_request_with_retry` run: its result, how many
attempts (calls of `func`) it performed, and the backoff sleeps between them. -/
structure RetryTrace (α : Type) where
  result : RetryOutcome α
  attempts : Nat
  waits : List ℚ
  deriving DecidableEq

/-- `base = max(1.0, float(API_DELAY_SECONDS))`. -/
def baseDelay : ℚ := max 1 API_DELAY_SECONDS

/-- `min_gap = 60.0 / max(1, GOOGLE_API_LIMITS["max_requests_per_minute"])`. -/
def minGap : ℚ := 60 / (max 1 MAX_REQUESTS_PER_MINUTE : Nat)

/-- One backoff sleep: `wait = base * 2**attempt + random.uniform(0, base)`,
then `wait = max(wait, min_gap)` (full jitter floored to the per-minute gap). -/
def backoffWait (attempt : Nat) (jitter : ℚ) : ℚ :=
  max (baseDelay * 2 ^ attempt + jitter) minGap

/-- The `for attempt in range(API_MAX_RETRIES)` loop of `_request_with_retry`,
structured by remaining fuel (`fuel = API_MAX_RETRIES - attempt`). `calls n`
is the outcome of the `n`-th invocation of `func` (0-based), `jitter n` the
jitter drawn before the sleep that follows attempt `n`. The fuel-0 case is the
`raise last_exc or Exception(...)` after the loop (reachable only if the range
is empty). A failing attempt raises right away when it is the last one or the
message classifies as non-retryable; otherwise it sleeps and continues. -/
def retryLoop (calls : Nat → Except PyExc α) (jitter : Nat → ℚ) :
    Nat → Nat → RetryTrace α
  | 0, attempt => ⟨.raised ⟨false⟩, attempt, []⟩
  | fuel + 1, attempt =>
    match calls attempt with
    | .ok v => ⟨.ok v, attempt + 1, []⟩
    | .error e =>
      if attempt = API_MAX_RETRIES - 1 || !e.msgRetryable then
        ⟨.raised (raisedFrom e), attempt + 1, []⟩
      else
        let w := backoffWait attempt (jitter attempt)
        let rest := retryLoop calls jitter fuel (attempt + 1)
        ⟨rest.result, rest.attempts, w :: rest.waits⟩

/-- `SheetsAPI._request_with_retry(func, ...)` as a trace. -/
def request_with_retry (calls : Nat → Except PyExc α) (jitter : Nat → ℚ) :
    RetryTrace α :=
  retryLoop calls jitter API_MAX_RETRIES 0

/-! ### Sync engine (`dist/WorkTimeTracker_User/_internal/auto_sync.py`) -/

/-- The mode/interval state of `SyncManager`: `_is_offline_recovery` and
`_sync_interval`. -/
structure EngineState where
  isOfflineRecovery : Bool
  syncInterval : Nat
  deriving DecidableEq

/-- Number of actions `_prepare_batch` returns in total:
`get_unsynced_actions(SYNC_BATCH_SIZE)` rows, grouped by email — grouping
preserves the total count `sum(len(actions) for actions in batch.values())`. -/
def prepare_batch_total (db : DBState) : Nat :=
  (get_unsynced_actions SYNC_BATCH_SIZE db).length

/-- The mode-switching effect of `SyncManager.sync_once`: if
`total_actions > 100 and not self._is_offline_recovery`, activate recovery mode
with the recovery interval; otherwise leave the state unchanged. -/
def sync_once_mode (db : DBState) (s : EngineState) : EngineState :=
  let totalActions := prepare_batch_total db
  if totalActions > 100 && !s.isOfflineRecovery then
    { isOfflineRecovery := true, syncInterval := SYNC_INTERVAL_OFFLINE_RECOVERY }
  else s

/-- The interval/mode logic at the top of each `run_service` cycle: with
internet, a recovery-mode engine drops back (interval `SYNC_INTERVAL`) once the
queue is below 50, else keeps the recovery interval; a normal-mode engine gets
the online interval; without internet the interval is 10 s. -/
def service_interval_update (internet : Bool) (db : DBState) (s : EngineState) :
    EngineState :=
  if internet then
    if s.isOfflineRecovery then
      if get_unsynced_count db < 50 then
        { isOfflineRecovery := false, syncInterval := SYNC_INTERVAL }
      else { s with syncInterval := SYNC_INTERVAL_OFFLINE_RECOVERY }
    else { s with syncInterval := SYNC_INTERVAL_ONLINE }
  else { s with syncInterval := 10 }

/-- One `run_service` cycle's effect on the engine state: the interval update,
then `sync_once` (whose only state effect is `sync_once_mode`). -/
def service_cycle (internet : Bool) (db : DBState) (s : EngineState) : EngineState :=
  sync_once_mode db (service_interval_update internet db s)

/-! ### Remote-command polling (`SyncManager._check_remote_commands`) -/

/-- What one polling cycle of `_check_remote_commands` observes:
`is_internet_available()`, whether a current email with an active local session
(hence a `session_id`) exists, and the remote status string returned by
`_check_user_session_status`. -/
structure PollObservation where
  internetAvailable : Bool
  activeSession : Bool
  remoteStatus : Str
  deriving DecidableEq

/-- Whether one run of `_check_remote_commands` emits `force_logout`:
it returns early without internet or without an active session, and otherwise
emits exactly when the remote status is `"kicked"` or `"finished"` (and a
signals object is attached). No flag records a previous emission. -/
def check_remote_commands_emits (hasSignals : Bool) (o : PollObservation) : Bool :=
  if !o.internetAvailable then false
  else if !o.activeSession then false
  else if o.remoteStatus == "kicked".data then hasSignals
  else if o.remoteStatus == "finished".data then hasSignals
  else false

/-- Total number of `force_logout` emissions over a sequence of polling
cycles (one `_check_remote_commands` run per `run_service` cycle). -/
def force_logout_emissions (hasSignals : Bool) (run : List PollObservation) : Nat :=
  run.countP (fun o => check_remote_commands_emits hasSignals o)

/-! ## Theorems -/

/-- `log_action` truncates the comment before the INSERT, so the
`check_comment_length` trigger can never abort. -/
theorem commentTooLong_truncated (c : Option Str) :
    commentTooLong (c.map (fun c =>
      if c.length > MAX_COMMENT_LENGTH then c.take MAX_COMMENT_LENGTH else c)) = false := by
  cases c with
  | none => rfl
  | some c =>
    by_cases h : c.length > MAX_COMMENT_LENGTH
    · have hm : (some c).map (fun c =>
          if c.length > MAX_COMMENT_LENGTH then c.take MAX_COMMENT_LENGTH else c) =
          some (c.take MAX_COMMENT_LENGTH) := by
        simp [h]
      rw [hm]
      simp only [commentTooLong, List.length_take, decide_eq_false_iff_not, gt_iff_lt,
        not_lt, MAX_COMMENT_LENGTH]
      omega
    · have hm : (some c).map (fun c =>
          if c.length > MAX_COMMENT_LENGTH then c.take MAX_COMMENT_LENGTH else c) =
          some c := by
        simp [h]
      rw [hm]
      simp only [commentTooLong, decide_eq_false_iff_not]
      exact h

/-- C4: appending a second LOGOUT for a session while the local log still holds
a LOGOUT for that session inside the trigger's dedup window
(`timestamp > datetime('now', '-5 minutes')`) is a logical no-op: `log_action`
returns normally (value `-1`, no exception) and the log is unchanged, so its
row count does not increase. -/
theorem logout_dedup_is_noop (t : TimeCtx) (a : LogActionInput) (db : DBState)
    (hemail : a.email ≠ []) (hname : a.name ≠ [])
    (hdup : duplicateLogout db.rows
        (pyStrOr a.session_id (gen_session_id a.email t.nowCompact))
        a.action_type t.dedupCutoff = true) :
    log_action t a db = .ok (-1, db) := by
  have hat : a.action_type ≠ [] := by
    intro h
    rw [duplicateLogout, h] at hdup
    simp [pyLower] at hdup
  have hcond : ¬(a.email = [] ∨ a.name = [] ∨ a.action_type = []) := by
    push_neg
    exact ⟨hemail, hname, hat⟩
  simp only [log_action, if_neg hcond, commentTooLong_truncated, Bool.false_eq_true,
    if_false, hdup, if_true]

/-- On valid required fields, `log_action` either suppresses a duplicate LOGOUT
(returning `-1` with the state unchanged) or appends `insertedRow` and returns
its fresh id. -/
theorem log_action_eq (t : TimeCtx) (a : LogActionInput) (db : DBState)
    (hv : ¬(a.email = [] ∨ a.name = [] ∨ a.action_type = [])) :
    log_action t a db =
      if duplicateLogout db.rows
          (pyStrOr a.session_id (gen_session_id a.email t.nowCompact))
          a.action_type t.dedupCutoff then
        .ok (-1, db)
      else
        .ok (db.nextId, { rows := db.rows ++ [insertedRow t a db], nextId := db.nextId + 1 }) := by
  simp only [log_action, if_neg hv, commentTooLong_truncated, Bool.false_eq_true, if_false]

/-- A demo clock for concrete evaluations: now is `2025-01-01 10:00:00` UTC, so
the trigger cutoff `datetime('now','-5 minutes')` reads `2025-01-01 09:55:00`. -/
def demoTime : TimeCtx :=
  ⟨"2025-01-01T10:00:00+00:00".data, "20250101100000".data, "2025-01-01 09:55:00".data⟩

/-- A demo LOGOUT row for session `s1`, logged at `2025-01-01T09:58` UTC. -/
def demoLogoutRow : LogRow :=
  { id := 1
    session_id := "s1".data
    email := "user@company.com".data
    name := "U".data
    action_type := "logout".data
    timestamp := "2025-01-01T09:58:00+00:00".data }

/-- A demo database holding `demoLogoutRow` only. -/
def demoDB : DBState := ⟨[demoLogoutRow], 2⟩

/-- Arguments of a second LOGOUT append for the same session `s1`. -/
def demoLogoutInput : LogActionInput :=
  { email := "user@company.com".data
    name := "U".data
    action_type := "LOGOUT".data
    session_id := some "s1".data }

/-- Concrete instance of `logout_dedup_is_noop`: re-appending a LOGOUT for
session `s1` three minutes after the first one returns `-1` and leaves the
log unchanged. -/
theorem logout_dedup_is_noop_witness :
    log_action demoTime demoLogoutInput demoDB = .ok (-1, demoDB) :=
  logout_dedup_is_noop _ _ _ (by decide) (by decide) (by decide)

/-- C9: every row `log_action` inserts stores
`priority = max(1, min(3, int(priority or 1)))`, hence a value in `[1, 3]`:
`None` and `0` become `1`, values above `3` become `3`; out-of-range priorities
are clamped, never rejected (any returning call either left the log unchanged
or appended exactly one such clamped row). -/
theorem log_action_priority_clamped (t : TimeCtx) (a : LogActionInput)
    (db : DBState) (rid : Int) (db' : DBState)
    (h : log_action t a db = .ok (rid, db')) :
    db'.rows = db.rows ∨
    ∃ row, db'.rows = db.rows ++ [row] ∧
      row.priority = max 1 (min 3 (pyIntOr1 a.priority)) ∧
      1 ≤ row.priority ∧ row.priority ≤ 3 ∧
      (a.priority = none → row.priority = 1) ∧
      (a.priority = some 0 → row.priority = 1) ∧
      (∀ p : Int, a.priority = some p → 3 < p → row.priority = 3) := by
  by_cases hv : a.email = [] ∨ a.name = [] ∨ a.action_type = []
  · rw [log_action, if_pos hv] at h
    exact absurd h (by simp)
  · rw [log_action_eq t a db hv] at h
    by_cases hdup : duplicateLogout db.rows
        (pyStrOr a.session_id (gen_session_id a.email t.nowCompact))
        a.action_type t.dedupCutoff = true
    · rw [if_pos hdup] at h
      left
      have : db' = db := by
        injection h with h2
        injection h2 with _ h3
        exact h3.symm
      rw [this]
    · rw [if_neg hdup] at h
      right
      refine ⟨insertedRow t a db, ?_, rfl, ?_, ?_, ?_, ?_, ?_⟩
      · injection h with h2
        injection h2 with _ h3
        rw [← h3]
      · simp only [insertedRow]
        omega
      · simp only [insertedRow]
        omega
      · intro hp
        simp only [insertedRow, hp, pyIntOr1]
        omega
      · intro hp
        simp only [insertedRow, hp, pyIntOr1, if_pos rfl]
        omega
      · intro p hp h3p
        have hpne : ¬(p = 0) := by omega
        simp only [insertedRow, hp, pyIntOr1, if_neg hpne]
        omega

/-- Append arguments with an out-of-range priority `7`. -/
def demoPrioInput : LogActionInput :=
  { email := "a".data, name := "b".data, action_type := "LOGIN".data, priority := some 7 }

/-- The row `log_action demoTime demoPrioInput ⟨[], 1⟩` inserts: the priority
is clamped from `7` to `3`. -/
def demoPrioRow : LogRow :=
  { id := 1
    session_id := "a_20250101100000".data
    email := "a".data
    name := "b".data
    action_type := "LOGIN".data
    timestamp := "2025-01-01T10:00:00+00:00".data
    priority := 3 }

/-- Concrete instance of `log_action_priority_clamped`: appending with
priority `7` stores a row whose priority is `3`. -/
theorem log_action_priority_clamped_witness :
    (⟨[demoPrioRow], 2⟩ : DBState).rows = (⟨[], 1⟩ : DBState).rows ∨
    ∃ row, (⟨[demoPrioRow], 2⟩ : DBState).rows = (⟨[], 1⟩ : DBState).rows ++ [row] ∧
      row.priority = max 1 (min 3 (pyIntOr1 demoPrioInput.priority)) ∧
      1 ≤ row.priority ∧ row.priority ≤ 3 ∧
      (demoPrioInput.priority = none → row.priority = 1) ∧
      (demoPrioInput.priority = some 0 → row.priority = 1) ∧
      (∀ p : Int, demoPrioInput.priority = some p → 3 < p → row.priority = 3) :=
  log_action_priority_clamped demoTime demoPrioInput ⟨[], 1⟩ 1 ⟨[demoPrioRow], 2⟩ (by decide)

/-- C10: a call of `log_action` that returns (rather than raising) returns `-1`
exactly when the duplicate-LOGOUT suppression fired; any other return is a
genuine insert: the fresh AUTOINCREMENT id (`≥ 1` on a live database, whose
`nextId ≥ 1`), with exactly one row appended. A `-1` return leaves the
database unchanged. -/
theorem log_action_sentinel (t : TimeCtx) (a : LogActionInput)
    (db : DBState) (rid : Int) (db' : DBState) (hnext : 1 ≤ db.nextId)
    (h : log_action t a db = .ok (rid, db')) :
    (rid = -1 ↔ duplicateLogout db.rows
        (pyStrOr a.session_id (gen_session_id a.email t.nowCompact))
        a.action_type t.dedupCutoff = true)
    ∧ (rid ≠ -1 → rid = db.nextId ∧ 1 ≤ rid ∧ db'.rows.length = db.rows.length + 1)
    ∧ (rid = -1 → db' = db) := by
  by_cases hv : a.email = [] ∨ a.name = [] ∨ a.action_type = []
  · rw [log_action, if_pos hv] at h
    exact absurd h (by simp)
  · rw [log_action_eq t a db hv] at h
    by_cases hdup : duplicateLogout db.rows
        (pyStrOr a.session_id (gen_session_id a.email t.nowCompact))
        a.action_type t.dedupCutoff = true
    · rw [if_pos hdup] at h
      injection h with h2
      injection h2 with hrid hdb
      refine ⟨⟨fun _ => hdup, fun _ => hrid.symm⟩, ?_, fun _ => hdb.symm⟩
      intro hne
      exact absurd hrid.symm hne
    · rw [if_neg hdup] at h
      injection h with h2
      injection h2 with hrid hdb
      constructor
      · constructor
        · intro hm1
          rw [← hrid] at hm1
          omega
        · intro hd
          exact absurd hd hdup
      constructor
      · intro _
        refine ⟨hrid.symm, by omega, ?_⟩
        rw [← hdb]
        simp
      · intro hm1
        rw [← hrid] at hm1
        omega

/-- Concrete instance of `log_action_sentinel`: the suppressed duplicate LOGOUT
of `demoDB` returns the sentinel `-1`, and `-1` is returned exactly because the
suppression fired. -/
theorem log_action_sentinel_witness :
    ((-1 : Int) = -1 ↔ duplicateLogout demoDB.rows
        (pyStrOr demoLogoutInput.session_id
          (gen_session_id demoLogoutInput.email demoTime.nowCompact))
        demoLogoutInput.action_type demoTime.dedupCutoff = true)
    ∧ ((-1 : Int) ≠ -1 → (-1 : Int) = demoDB.nextId ∧ 1 ≤ (-1 : Int) ∧
        demoDB.rows.length = demoDB.rows.length + 1)
    ∧ ((-1 : Int) = -1 → demoDB = demoDB) :=
  log_action_sentinel demoTime demoLogoutInput demoDB (-1) demoDB (by decide) (by decide)

/-- `mark_actions_synced` rewrites every row by `syncUpdate` (one call's worth);
in particular the empty-ids early return agrees with the no-op update. -/
theorem mark_actions_synced_rows (ids : List Int) (now : Str) (db : DBState) :
    (mark_actions_synced ids now db).rows = db.rows.map (syncUpdate ids now 1) := by
  unfold mark_actions_synced
  by_cases h : ids = []
  · rw [if_pos h]
    subst h
    have hid : ∀ r : LogRow, syncUpdate [] now 1 r = r := by
      intro r
      simp [syncUpdate]
    calc db.rows = db.rows.map id := (List.map_id _).symm
    _ = db.rows.map (syncUpdate [] now 1) := List.map_congr_left (fun r _ => (hid r).symm)
  · rw [if_neg h]

/-- Applying the one-call update twice (with possibly different clock readings)
equals one two-calls-worth update. -/
theorem syncUpdate_comp (ids : List Int) (now1 now2 : Str) (r : LogRow) :
    syncUpdate ids now2 1 (syncUpdate ids now1 1 r) = syncUpdate ids now2 2 r := by
  unfold syncUpdate
  obtain ⟨f1, f2, f3, f4, f5, f6, f7, f8, f9, f10, f11, f12, f13, f14, f15, f16⟩ := r
  by_cases h : f1 ∈ ids
  · simp [h]
    all_goals omega
  · simp [h]

/-- C7: `mark_actions_synced` is idempotent and `synced` is monotonic. One call
sets `synced = 1` on every listed row; a second call with the same ids keeps
`synced = 1` everywhere it held (it never un-syncs any row), and the two calls
together change `sync_attempts` by exactly one increment per call (so by no
more than the two calls' worth). -/
theorem mark_synced_idempotent (ids : List Int) (now1 now2 : Str) (db : DBState) :
    (mark_actions_synced ids now1 db).rows = db.rows.map (syncUpdate ids now1 1)
    ∧ (mark_actions_synced ids now2 (mark_actions_synced ids now1 db)).rows
        = db.rows.map (syncUpdate ids now2 2)
    ∧ (∀ r ∈ (mark_actions_synced ids now1 db).rows, r.id ∈ ids → r.synced = 1)
    ∧ (∀ r ∈ (mark_actions_synced ids now2 (mark_actions_synced ids now1 db)).rows,
        r.id ∈ ids → r.synced = 1)
    ∧ (∀ r : LogRow, r.synced = 1 → (syncUpdate ids now2 2 r).synced = 1)
    ∧ (∀ r : LogRow, (syncUpdate ids now2 2 r).sync_attempts ≤ r.sync_attempts + 2) := by
  have hone : ∀ now (dbx : DBState) r, r ∈ (mark_actions_synced ids now dbx).rows →
      r.id ∈ ids → r.synced = 1 := by
    intro now dbx r hr hid
    rw [mark_actions_synced_rows] at hr
    obtain ⟨r0, _, rfl⟩ := List.mem_map.mp hr
    unfold syncUpdate at hid ⊢
    by_cases h : r0.id ∈ ids
    · simp [if_pos h]
    · rw [if_neg h] at hid ⊢
      exact absurd hid h
  refine ⟨mark_actions_synced_rows ids now1 db, ?_, hone now1 db, hone now2 _, ?_, ?_⟩
  · rw [mark_actions_synced_rows, mark_actions_synced_rows, List.map_map]
    apply List.map_congr_left
    intro r _
    exact syncUpdate_comp ids now1 now2 r
  · intro r hr
    unfold syncUpdate
    by_cases h : r.id ∈ ids
    · simp [if_pos h]
    · rw [if_neg h]
      exact hr
  · intro r
    unfold syncUpdate
    by_cases h : r.id ∈ ids
    · simp [if_pos h]
    · rw [if_neg h]
      omega

/-- A LOGOUT row already marked synced. -/
def demoSyncedRow : LogRow := { demoLogoutRow with synced := 1 }

/-- Concrete instance of `mark_synced_idempotent`: a second two-calls-worth
update never un-syncs the already-synced row. -/
theorem mark_synced_idempotent_witness :
    (syncUpdate [1] "n2".data 2 demoSyncedRow).synced = 1 :=
  (mark_synced_idempotent [1] "n1".data "n2".data demoDB).2.2.2.2.1 demoSyncedRow (by decide)

/-- C6: `get_unsynced_actions` returns only rows of the log with `synced = 0`,
contains no row twice (given the table's primary-key invariant that row ids
are distinct), and is ordered by `priority` descending and, within each
priority band, by `timestamp` ascending — the `unsyncedOrder` relation holds
pairwise along the returned list. -/
theorem get_unsynced_batch_spec (limit : Nat) (db : DBState) :
    (∀ r ∈ get_unsynced_actions limit db, r ∈ db.rows ∧ r.synced = 0)
    ∧ ((db.rows.map (fun r => r.id)).Nodup →
        ((get_unsynced_actions limit db).map (fun r => r.id)).Nodup)
    ∧ (get_unsynced_actions limit db).Pairwise unsyncedOrder := by
  refine ⟨?_, ?_, ?_⟩
  · intro r hr
    have hs : r ∈ List.insertionSort unsyncedOrder
        (db.rows.filter (fun r => r.synced == 0)) :=
      List.mem_of_mem_take hr
    have hf : r ∈ db.rows.filter (fun r => r.synced == 0) :=
      (List.mem_insertionSort unsyncedOrder).mp hs
    obtain ⟨hmem, hp⟩ := List.mem_filter.mp hf
    exact ⟨hmem, by simpa using hp⟩
  · intro h
    have hfil : ((db.rows.filter (fun r => r.synced == 0)).map (fun r => r.id)).Nodup :=
      h.sublist (List.Sublist.map _ (List.filter_sublist _))
    have hperm : List.Perm
        ((List.insertionSort unsyncedOrder
          (db.rows.filter (fun r => r.synced == 0))).map (fun r => r.id))
        ((db.rows.filter (fun r => r.synced == 0)).map (fun r => r.id)) :=
      (List.perm_insertionSort unsyncedOrder _).map _
    have hsorted : ((List.insertionSort unsyncedOrder
        (db.rows.filter (fun r => r.synced == 0))).map (fun r => r.id)).Nodup :=
      (hperm.nodup_iff).mpr hfil
    exact hsorted.sublist (List.Sublist.map _ (List.take_sublist _ _))
  · have hs : (List.insertionSort unsyncedOrder
        (db.rows.filter (fun r => r.synced == 0))).Pairwise unsyncedOrder :=
      List.sorted_insertionSort unsyncedOrder _
    exact List.Pairwise.sublist (List.take_sublist _ _) hs

/-- An unsynced LOGIN row with priority 2. -/
def demoRowA : LogRow :=
  { id := 2, session_id := "s".data, email := "e".data, name := "n".data,
    action_type := "LOGIN".data, timestamp := "t2".data, priority := 2 }

/-- An unsynced STATUS_CHANGE row with priority 1. -/
def demoRowB : LogRow :=
  { id := 3, session_id := "s".data, email := "e".data, name := "n".data,
    action_type := "STATUS_CHANGE".data, timestamp := "t1".data, priority := 1 }

/-- An already-synced row. -/
def demoRowC : LogRow :=
  { id := 4, session_id := "s".data, email := "e".data, name := "n".data,
    action_type := "STATUS_CHANGE".data, timestamp := "t0".data, synced := 1 }

/-- A demo log with two unsynced rows and one synced row. -/
def demoBatchDB : DBState := ⟨[demoRowB, demoRowC, demoRowA], 5⟩

/-- Concrete instance of `get_unsynced_batch_spec`: on `demoBatchDB` (whose ids
are distinct) the returned batch has no duplicate row id. -/
theorem get_unsynced_batch_spec_witness :
    ((get_unsynced_actions 2 demoBatchDB).map (fun r => r.id)).Nodup :=
  (get_unsynced_batch_spec 2 demoBatchDB).2.1 (by decide)

/-- In a list that is pairwise related by a reflexive relation, every element
relates to the last element. -/
theorem pairwise_rel_getLast {α : Type} {r : α → α → Prop} (hrefl : ∀ a, r a a) :
    ∀ (l : List α), l.Pairwise r → ∀ (hne : l ≠ []) (x : α), x ∈ l →
      r x (l.getLast hne)
  | [], _, hne, _, _ => absurd rfl hne
  | [a], _, _, x, hx => by
    rcases List.mem_singleton.mp hx with rfl
    exact hrefl x
  | a :: b :: t, h, hne, x, hx => by
    have hb : (b :: t) ≠ [] := List.cons_ne_nil _ _
    have hlast : (a :: b :: t).getLast hne = (b :: t).getLast hb := List.getLast_cons hb
    rw [hlast]
    rcases List.mem_cons.mp hx with rfl | hx2
    · exact (List.pairwise_cons.mp h).1 _ (List.getLast_mem hb)
    · exact pairwise_rel_getLast hrefl (b :: t) (List.pairwise_cons.mp h).2 hb x hx2

/-- `sessionKeyLE` is reflexive. -/
theorem sessionKeyLE_refl (a : Nat × SessionRow) : sessionKeyLE a a :=
  Or.inr ⟨rfl, le_refl _⟩

/-- Python `sorted(l, key=key_fn)[-1]` picks an element of `l` that is maximal
for the key ordering. -/
theorem insertionSort_getLast_max {l : List (Nat × SessionRow)} (hne : l ≠ []) :
    ∃ p ∈ l, (List.insertionSort sessionKeyLE l).getLast? = some p ∧
      ∀ q ∈ l, sessionKeyLE q p := by
  have hperm := List.perm_insertionSort sessionKeyLE l
  have hsne : List.insertionSort sessionKeyLE l ≠ [] := by
    intro h0
    rw [h0] at hperm
    exact hne hperm.symm.eq_nil
  refine ⟨(List.insertionSort sessionKeyLE l).getLast hsne, ?_, ?_, ?_⟩
  · exact hperm.mem_iff.mp (List.getLast_mem hsne)
  · exact List.getLast?_eq_getLast _ hsne
  · intro q hq
    exact pairwise_rel_getLast sessionKeyLE_refl _
      (List.sorted_insertionSort sessionKeyLE l) hsne q (hperm.mem_iff.mpr hq)

/-- C8: `check_user_session_status` returns the (normalized) status of the
most recent row exactly matching `(email, session_id)` when one exists;
otherwise the (normalized) status of the most recent record — maximal stripped
LoginTime — for the email; and `"unknown"` when the email has no record at
all. -/
theorem check_user_session_status_spec (table : List SessionRow)
    (email sessionId : Str) :
    (exactMatches table email sessionId ≠ [] →
      ∃ p ∈ exactMatches table email sessionId,
        check_user_session_status table email sessionId = normStatus p.2.Status ∧
        ∀ q ∈ exactMatches table email sessionId, sessionKeyLE q p)
    ∧ (exactMatches table email sessionId = [] → emailMatches table email ≠ [] →
      ∃ p ∈ emailMatches table email,
        check_user_session_status table email sessionId = normStatus p.2.Status ∧
        ∀ q ∈ emailMatches table email,
          pyStrip q.2.LoginTime ≤ pyStrip p.2.LoginTime)
    ∧ (emailMatches table email = [] →
        check_user_session_status table email sessionId = "unknown".data) := by
  refine ⟨?_, ?_, ?_⟩
  · intro hne
    obtain ⟨p, hp, hlast, hmax⟩ := insertionSort_getLast_max hne
    refine ⟨p, hp, ?_, hmax⟩
    have hb : (!(exactMatches table email sessionId).isEmpty) = true := by
      simpa [List.isEmpty_iff] using hne
    simp only [check_user_session_status, hb, if_true, hlast]
  · intro hex hne
    obtain ⟨p, hp, hlast, hmax⟩ := insertionSort_getLast_max hne
    refine ⟨p, hp, ?_, ?_⟩
    · have hb : (!(exactMatches table email sessionId).isEmpty) = false := by
        simp [hex]
      have hb2 : (emailMatches table email).isEmpty = false := by
        simpa [List.isEmpty_iff] using hne
      simp only [check_user_session_status, hb, Bool.false_eq_true, if_false, hb2, hlast]
    · intro q hq
      rcases hmax q hq with h | ⟨h, _⟩
      · exact le_of_lt h
      · exact le_of_eq h
  · intro hem
    have hex : exactMatches table email sessionId = [] := by
      rw [List.eq_nil_iff_forall_not_mem]
      intro p hp
      have hmem : p ∈ emailMatches table email := by
        rw [exactMatches, List.mem_filter] at hp
        rw [emailMatches, List.mem_filter]
        have hp2 := hp.2
        simp only [Bool.and_eq_true] at hp2
        exact ⟨hp.1, hp2.1⟩
      rw [hem] at hmem
      exact absurd hmem (List.not_mem_nil p)
    simp [check_user_session_status, hex, hem]

/-- A two-row demo `ActiveSessions` table: two logins of `u@x.com` under
session `s1`, the later one kicked (Email case differs to exercise the
normalization). -/
def demoSessions : List SessionRow :=
  [{ Email := "U@x.com ".data, SessionID := "s1".data,
     LoginTime := "2025-01-01 09:00:00".data, Status := "active".data },
   { Email := "u@x.com".data, SessionID := "s1".data,
     LoginTime := "2025-01-01 10:00:00".data, Status := "Kicked".data }]

/-- Concrete instance of `check_user_session_status_spec`: the exact-match
clause applies on `demoSessions`. -/
theorem check_user_session_status_spec_witness :
    ∃ p ∈ exactMatches demoSessions "u@x.com".data "s1".data,
      check_user_session_status demoSessions "u@x.com".data "s1".data =
        normStatus p.2.Status ∧
      ∀ q ∈ exactMatches demoSessions "u@x.com".data "s1".data, sessionKeyLE q p :=
  (check_user_session_status_spec demoSessions "u@x.com".data "s1".data).1 (by decide)

/-- One polling cycle with connectivity, an active local session and remote
status `kicked`. -/
def kickedCycle : PollObservation := ⟨true, true, "kicked".data⟩

/-- C1 counterexample: over two consecutive polling cycles that both observe
the same terminal remote status `kicked` (same session, connectivity up,
signals attached), the engine emits the cancellation signal twice — not at
most once per detected remote termination as claimed. -/
theorem force_logout_reemission_counterexample :
    force_logout_emissions true [kickedCycle, kickedCycle] = 2 ∧
    ¬(force_logout_emissions true [kickedCycle, kickedCycle] ≤ 1) := by
  decide

/-- C1 (amended): `_check_remote_commands` keeps no record of a previous
emission, so the cancellation signal is emitted on every polling cycle that
observes a terminal remote status (`kicked` or `finished`) while connectivity
and an active local session are present: over `n` such cycles it is emitted
exactly `n` times. -/
theorem force_logout_reemitted_every_cycle (n : Nat) (st : Str)
    (hst : st = "kicked".data ∨ st = "finished".data) :
    force_logout_emissions true (List.replicate n ⟨true, true, st⟩) = n := by
  have hemit : check_remote_commands_emits true ⟨true, true, st⟩ = true := by
    rcases hst with rfl | rfl <;> decide
  induction n with
  | zero => rfl
  | succ k ih =>
    unfold force_logout_emissions at *
    rw [List.replicate_succ, List.countP_cons, hemit]
    simp [ih]

/-- Concrete instance of `force_logout_reemitted_every_cycle`: three
consecutive `finished` observations emit three times. -/
theorem force_logout_reemitted_every_cycle_witness :
    force_logout_emissions true
      (List.replicate 3 ⟨true, true, "finished".data⟩) = 3 :=
  force_logout_reemitted_every_cycle 3 "finished".data (Or.inr rfl)

/-- `_prepare_batch` can never hand `sync_once` more than `SYNC_BATCH_SIZE`
actions: the batch read is `LIMIT`-capped. -/
theorem prepare_batch_total_le (db : DBState) :
    prepare_batch_total db ≤ SYNC_BATCH_SIZE :=
  List.length_take_le _ _

/-- The `run_service` interval logic never sets the recovery flag: it only
clears it or leaves it as is. -/
theorem service_interval_update_flag (internet : Bool) (db : DBState)
    (s : EngineState) (h : s.isOfflineRecovery = false) :
    (service_interval_update internet db s).isOfflineRecovery = false := by
  unfold service_interval_update
  by_cases hi : internet
  · simp [hi, h]
  · simp [hi, h]

/-- C2 (code behaviour, contradicting the claim): `sync_once` compares the
*fetched batch size* — at most `SYNC_BATCH_SIZE = 35` — against the threshold
100, so `total_actions > 100` never holds and offline-recovery mode can never
be activated: from a non-recovery state, every cycle (any connectivity, any
backlog — e.g. 150) leaves `_is_offline_recovery` false. -/
theorem sync_cycle_never_enters_recovery (internet : Bool) (db : DBState)
    (s : EngineState) (h : s.isOfflineRecovery = false) :
    (service_cycle internet db s).isOfflineRecovery = false := by
  have hcap : prepare_batch_total db ≤ SYNC_BATCH_SIZE := prepare_batch_total_le db
  have hno : ¬(prepare_batch_total db > 100) := by
    unfold SYNC_BATCH_SIZE at hcap
    omega
  have hflag := service_interval_update_flag internet db s h
  unfold service_cycle
  simp [sync_once_mode, hno, hflag]

/-- A backlog of 150 unsynced STATUS_CHANGE rows. -/
def bigBacklogDB : DBState :=
  ⟨(List.range 150).map (fun i : Nat =>
    { id := (i : Int) + 1, session_id := "s".data, email := "e".data,
      name := "n".data, action_type := "STATUS_CHANGE".data,
      timestamp := "t".data }), 151⟩

/-- Concrete instance of `sync_cycle_never_enters_recovery` at the claim's
scenario: backlog 150 (> threshold 100), connectivity up, engine Online —
after one full cycle the mode is still not OfflineRecovery. -/
theorem sync_cycle_never_enters_recovery_witness :
    get_unsynced_count bigBacklogDB = 150 ∧
    (service_cycle true bigBacklogDB ⟨false, SYNC_INTERVAL_ONLINE⟩).isOfflineRecovery
      = false := by
  constructor
  · unfold get_unsynced_count bigBacklogDB
    rw [List.filter_eq_self.mpr]
    · rw [List.length_map, List.length_range]
    · intro r hr
      obtain ⟨i, _, rfl⟩ := List.mem_map.mp hr
      rfl
  · exact sync_cycle_never_enters_recovery true bigBacklogDB _ rfl

/-- A generic terminal failure: not a `SheetsAPIError`, message without any
retry keyword (e.g. an auth failure or malformed request). -/
def genericTerminalExc : PyExc := ⟨false, false, false⟩

/-- C3 counterexample: when every call fails with a generic terminal error,
the wrapper does raise immediately (1 attempt), but the typed error it raises
carries `retryable = true` — the wrap is
`SheetsAPIError(..., is_retryable=True, ...)` — not `retryable = false` as
claimed. -/
theorem retry_terminal_flag_counterexample :
    (request_with_retry (fun _ => (.error genericTerminalExc : Except PyExc Unit))
        (fun _ => 0)).attempts = 1
    ∧ (request_with_retry (fun _ => (.error genericTerminalExc : Except PyExc Unit))
        (fun _ => 0)).result = .raised ⟨true⟩
    ∧ (request_with_retry (fun _ => (.error genericTerminalExc : Except PyExc Unit))
        (fun _ => 0)).result ≠ .raised ⟨false⟩ := by
  refine ⟨rfl, rfl, ?_⟩
  intro h
  simp [request_with_retry, retryLoop, genericTerminalExc, raisedFrom] at h

/-- The loop of `_request_with_retry` stops at the first non-retryable-classified
failure: after `k` retryable failures (`k` within the attempt budget), a
terminal failure at attempt `k` raises right there, having performed exactly
`k + 1` calls in total. -/
theorem retryLoop_terminal {α : Type} (calls : Nat → Except PyExc α)
    (jitter : Nat → ℚ) :
    ∀ (k fuel a : Nat) (e : PyExc), a + fuel = API_MAX_RETRIES → k < fuel →
      (∀ i, i < k → ∃ ei, calls (a + i) = .error ei ∧ ei.msgRetryable = true) →
      calls (a + k) = .error e → e.msgRetryable = false →
      (retryLoop calls jitter fuel a).result = .raised (raisedFrom e) ∧
      (retryLoop calls jitter fuel a).attempts = a + k + 1 := by
  intro k
  induction k with
  | zero =>
    intro fuel a e hsum hk _ hcall hterm
    obtain ⟨f, rfl⟩ : ∃ f, fuel = f + 1 := ⟨fuel - 1, by omega⟩
    have hca : calls a = .error e := by simpa using hcall
    simp [retryLoop, hca, hterm]
  | succ k ih =>
    intro fuel a e hsum hk hpre hcall hterm
    obtain ⟨f, rfl⟩ : ∃ f, fuel = f + 1 := ⟨fuel - 1, by omega⟩
    obtain ⟨e0, hc0, hr0⟩ := hpre 0 (by omega)
    have hca : calls a = .error e0 := by simpa using hc0
    have hne : ¬(a = API_MAX_RETRIES - 1) := by
      unfold API_MAX_RETRIES at hsum ⊢
      omega
    have hpre2 : ∀ i, i < k → ∃ ei, calls (a + 1 + i) = .error ei ∧
        ei.msgRetryable = true := by
      intro i hi
      obtain ⟨ei, hci, hri⟩ := hpre (i + 1) (by omega)
      refine ⟨ei, ?_, hri⟩
      have harith : a + 1 + i = a + (i + 1) := by omega
      rw [harith]
      exact hci
    have hcall2 : calls (a + 1 + k) = .error e := by
      have harith : a + 1 + k = a + (k + 1) := by omega
      rw [harith]
      exact hcall
    have ihres := ih f (a + 1) e (by omega) (by omega) hpre2 hcall2 hterm
    have hcond : (decide (a = API_MAX_RETRIES - 1) || !e0.msgRetryable) = false := by
      simp [hne, hr0]
    simp only [retryLoop, hca, hcond, Bool.false_eq_true, if_false]
    refine ⟨ihres.1, ?_⟩
    rw [ihres.2]
    omega

/-- C3 (amended): a call failing with an error classified terminal
(non-retryable) makes the wrapper raise immediately — no further attempts, at
any point of the attempt budget. The raised typed error keeps the original
`is_retryable` flag only when the failure already is a typed `SheetsAPIError`
(it is re-raised as-is); any other terminal error is wrapped with
`retryable = true`, so only typed errors can surface `retryable = false`. -/
theorem retry_terminal_raises_immediately {α : Type} (calls : Nat → Except PyExc α)
    (jitter : Nat → ℚ) (k : Nat) (e : PyExc) (hk : k < API_MAX_RETRIES)
    (hpre : ∀ i, i < k → ∃ ei, calls i = .error ei ∧ ei.msgRetryable = true)
    (hcall : calls k = .error e) (hterm : e.msgRetryable = false) :
    (request_with_retry calls jitter).result = .raised (raisedFrom e)
    ∧ (request_with_retry calls jitter).attempts = k + 1
    ∧ (e.isSheetsError = true → (raisedFrom e).retryable = e.retryFlag)
    ∧ (e.isSheetsError = false → (raisedFrom e).retryable = true) := by
  have hmain := retryLoop_terminal calls jitter k API_MAX_RETRIES 0 e (by omega) hk
    (fun i hi => by simpa using hpre i hi) (by simpa using hcall) hterm
  refine ⟨hmain.1, by simpa using hmain.2, ?_, ?_⟩
  · intro hs
    simp [raisedFrom, hs]
  · intro hs
    simp [raisedFrom, hs]

/-- A retryable failure: a typed quota-style error whose message contains a
retry keyword. -/
def retryableExc : PyExc := ⟨true, true, true⟩

/-- A typed terminal failure: a `SheetsAPIError` with `is_retryable=False` and
no retry keyword in its message. -/
def typedTerminalExc : PyExc := ⟨true, false, false⟩

/-- A remote store failing retryably once, then terminally. -/
def oneThenTerminalCalls : Nat → Except PyExc Unit := fun n =>
  if n = 0 then .error retryableExc else .error typedTerminalExc

/-- Concrete instance of `retry_terminal_raises_immediately`: one retryable
failure, then a typed terminal failure — the wrapper stops after 2 attempts and
re-raises the typed error with its `retryable = false` flag. -/
theorem retry_terminal_raises_immediately_witness :
    (request_with_retry oneThenTerminalCalls (fun _ => 0)).result =
        .raised (raisedFrom typedTerminalExc)
    ∧ (request_with_retry oneThenTerminalCalls (fun _ => 0)).attempts = 2
    ∧ (typedTerminalExc.isSheetsError = true →
        (raisedFrom typedTerminalExc).retryable = typedTerminalExc.retryFlag)
    ∧ (typedTerminalExc.isSheetsError = false →
        (raisedFrom typedTerminalExc).retryable = true) :=
  retry_terminal_raises_immediately oneThenTerminalCalls (fun _ => 0) 1
    typedTerminalExc (by decide)
    (fun i hi => by
      have hi0 : i = 0 := by omega
      subst hi0
      exact ⟨retryableExc, rfl, rfl⟩)
    rfl rfl

/-- `base` evaluates to `1.5`. -/
theorem baseDelay_eq : baseDelay = 3 / 2 := by
  norm_num [baseDelay, API_DELAY_SECONDS]

/-- `min_gap` evaluates to `1` second (60 requests per minute). -/
theorem minGap_eq : minGap = 1 := by
  norm_num [minGap, MAX_REQUESTS_PER_MINUTE]

/-- Backoff waits are monotonically non-decreasing across attempts, for every
jitter sequence drawn from `[0, base]`. -/
theorem backoffWait_mono (a : Nat) (j1 j2 : ℚ) (_hj1 : 0 ≤ j1)
    (hj1b : j1 ≤ baseDelay) (hj2 : 0 ≤ j2) :
    backoffWait a j1 ≤ backoffWait (a + 1) j2 := by
  rw [baseDelay_eq] at hj1b
  unfold backoffWait
  rw [baseDelay_eq, minGap_eq]
  have h2a : (1 : ℚ) ≤ 2 ^ a := one_le_pow₀ (by norm_num)
  have hp : (2 : ℚ) ^ (a + 1) = 2 * 2 ^ a := by
    rw [pow_succ]
    ring
  apply max_le
  · apply le_trans ?_ (le_max_left _ _)
    rw [hp]
    linarith
  · exact le_max_right _ _

/-- C5: with a remote store failing the first two calls retryably and
succeeding on the third, `_request_with_retry` returns the success after
exactly 3 attempts; the two sleeps are `base * 2^attempt + jitter` floored to
the minimum inter-call gap (`backoffWait` is definitionally that formula), and
for every jitter sequence in `[0, base]` the successive waits are
monotonically non-decreasing. -/
theorem retry_two_failures_then_success {α : Type} (calls : Nat → Except PyExc α)
    (jitter : Nat → ℚ) (e0 e1 : PyExc) (v : α)
    (h0 : calls 0 = .error e0) (hr0 : e0.msgRetryable = true)
    (h1 : calls 1 = .error e1) (hr1 : e1.msgRetryable = true)
    (h2 : calls 2 = .ok v)
    (hj : ∀ n, 0 ≤ jitter n ∧ jitter n ≤ baseDelay) :
    (request_with_retry calls jitter).result = .ok v
    ∧ (request_with_retry calls jitter).attempts = 3
    ∧ (request_with_retry calls jitter).waits =
        [backoffWait 0 (jitter 0), backoffWait 1 (jitter 1)]
    ∧ (∀ n j, backoffWait n j = max (baseDelay * 2 ^ n + j) minGap)
    ∧ (∀ n, backoffWait n (jitter n) ≤ backoffWait (n + 1) (jitter (n + 1))) := by
  have htrace : request_with_retry calls jitter =
      ⟨.ok v, 3, [backoffWait 0 (jitter 0), backoffWait 1 (jitter 1)]⟩ := by
    simp [request_with_retry, retryLoop, h0, h1, h2, hr0, hr1, API_MAX_RETRIES]
  refine ⟨by rw [htrace], by rw [htrace], by rw [htrace], fun n j => rfl, ?_⟩
  intro n
  exact backoffWait_mono n (jitter n) (jitter (n + 1)) (hj n).1 (hj n).2 (hj (n + 1)).1

/-- A remote store failing the first two calls retryably and succeeding on the
third. -/
def twoThenOkCalls : Nat → Except PyExc Unit := fun n =>
  if n ≤ 1 then .error retryableExc else .ok ()

/-- Concrete instance of `retry_two_failures_then_success`, with zero jitter:
success after exactly 3 attempts and non-decreasing waits. -/
theorem retry_two_failures_then_success_witness :
    (request_with_retry twoThenOkCalls (fun _ => 0)).result = .ok ()
    ∧ (request_with_retry twoThenOkCalls (fun _ => 0)).attempts = 3
    ∧ (request_with_retry twoThenOkCalls (fun _ => 0)).waits =
        [backoffWait 0 0, backoffWait 1 0]
    ∧ (∀ n j, backoffWait n j = max (baseDelay * 2 ^ n + j) minGap)
    ∧ (∀ n, backoffWait n 0 ≤ backoffWait (n + 1) 0) :=
  retry_two_failures_then_success twoThenOkCalls (fun _ => 0) retryableExc
    retryableExc () rfl rfl rfl rfl rfl
    (fun n => ⟨le_refl 0, by rw [baseDelay_eq]; norm_num⟩)

end WTT
